import Mathlib

/-! Shallow embedding of the Travel Buddy RAG backend (`main.py`).

Conventions of the embedding:
* Python floats (embedding coordinates, cosine-similarity scores) are
  modelled as rationals `ℚ`; the float literal `0.1` becomes `mkRat 1 10`.
* The sentence-transformers embedding model is an external dependency, not
  code of this repository; it is modelled as an abstract parameter
  `encode : String → List ℚ` (the global `embedding_model`, which may be
  `None`, is `Option (String → List ℚ)`).
* sklearn's `cosine_similarity` is likewise external and is modelled as an
  abstract parameter `sim : List ℚ → List ℚ → ℚ` applied to the query
  embedding and each stored embedding.
* Python exceptions are modelled with `Except String`.
* The JSON file `storage/vector_store.json` is modelled by `DiskFile`:
  absent, unparseable, or a parsed JSON object whose three keys are each
  possibly missing (Python reads them with `data.get(key, [])`).
-/

/-- A metadata dict attached to a stored chunk.  `main.py` only ever reads
the `"type"` key (via `meta.get("type")`, which yields `None` when the key
is missing, hence `Option String`); `source`, `chunk_id` and `uploaded_at`
carry the remaining keys written by `upload_travel_data`. -/
structure Meta where
  type? : Option String
  source : String
  chunk_id : Nat
  uploaded_at : String
deriving DecidableEq, Repr, Inhabited

/-- One element of the list returned by `VectorStore.search`: a dict
with the keys `text`, `score` and `metadata`. -/
structure SearchResult where
  text : String
  score : ℚ
  metadata : Meta
deriving DecidableEq, Repr, Inhabited

/-- The in-memory state of a `VectorStore`: the three parallel lists
`self.documents`, `self.embeddings`, `self.metadata`. -/
structure VectorStore where
  documents : List String
  embeddings : List (List ℚ)
  metadata : List Meta
deriving DecidableEq, Repr, Inhabited

/-- The parsed content of `vector_store.json` when `json.load` succeeds:
a JSON object whose three keys may each be missing (`data.get(k, [])`). -/
structure StoreData where
  documents? : Option (List String)
  embeddings? : Option (List (List ℚ))
  metadata? : Option (List Meta)
deriving DecidableEq, Repr, Inhabited

/-- The state of the file `storage/vector_store.json`: missing, present
but failing to read or parse, or successfully parsed JSON. -/
inductive DiskFile where
  | absent
  | corrupt
  | good (data : StoreData)
deriving DecidableEq, Repr, Inhabited

/-- Python truthiness of the `filter_type: str = None` argument:
`if filter_type:` is `False` both for `None` and for the empty string. -/
def truthy : Option String → Bool
  | none => false
  | some s => !(s == "")

/-- Insert a `(index, score)` pair into a list sorted by non-increasing
score, before the first element whose score is `≤` the inserted one
(so that earlier-listed elements win ties, as a stable sort requires). -/
def insertDescBySnd (x : Nat × ℚ) : List (Nat × ℚ) → List (Nat × ℚ)
  | [] => [x]
  | y :: ys => if y.2 ≤ x.2 then x :: y :: ys else y :: insertDescBySnd x ys

/-- Stable sort by non-increasing second component; extensionally equal to
Python's stable `list.sort(key=lambda x: x[1], reverse=True)`. -/
def sortDescBySnd : List (Nat × ℚ) → List (Nat × ℚ)
  | [] => []
  | x :: xs => insertDescBySnd x (sortDescBySnd xs)

/-- Python `similarities = cosine_similarity(query_embedding, embeddings_array)[0]`:
one score per stored embedding, in storage order. -/
def similaritiesOf (encode : String → List ℚ) (sim : List ℚ → List ℚ → ℚ)
    (store : VectorStore) (query : String) : List ℚ :=
  store.embeddings.map (sim (encode query))

/-- The index filter of `VectorStore.search`: with a truthy `filter_type`,
`[i for i, meta in enumerate(self.metadata) if meta.get("type") == filter_type]`;
otherwise `list(range(len(similarities)))`. -/
def filteredIndicesOf (store : VectorStore) (filter_type : Option String)
    (similarities : List ℚ) : List Nat :=
  if truthy filter_type then
    (List.range store.metadata.length).filter
      (fun i => (store.metadata.getD i default).type? == filter_type)
  else
    List.range similarities.length

/-- Python `filtered_similarities = [(i, similarities[i]) for i in filtered_indices]`. -/
def candidatesOf (store : VectorStore) (filter_type : Option String)
    (similarities : List ℚ) : List (Nat × ℚ) :=
  (filteredIndicesOf store filter_type similarities).map
    (fun i => (i, similarities.getD i 0))

/-- Model of `VectorStore.search(query, top_k, filter_type)`.  Returns `.ok []` when
the store holds no embeddings (checked before the model), raises when the
embedding model is not loaded, and otherwise sorts the filtered
`(index, score)` pairs by non-increasing score, takes the first `top_k`,
and keeps those whose score exceeds `0.1`. -/
def VectorStore.search (embedding_model : Option (String → List ℚ))
    (sim : List ℚ → List ℚ → ℚ) (store : VectorStore) (query : String)
    (top_k : Nat) (filter_type : Option String) :
    Except String (List SearchResult) :=
  if store.embeddings.isEmpty then .ok [] else
    match embedding_model with
    | none => .error "Embedding model not loaded"
    | some encode =>
      let similarities := similaritiesOf encode sim store query
      let filtered_similarities :=
        sortDescBySnd (candidatesOf store filter_type similarities)
      let top_indices := (filtered_similarities.take top_k).map Prod.fst
      .ok ((top_indices.filter
              (fun idx => mkRat 1 10 < similarities.getD idx 0)).map
            (fun idx =>
              { text := store.documents.getD idx ""
                score := similarities.getD idx 0
                metadata := store.metadata.getD idx default }))

/-- Model of `VectorStore.save_to_disk`: serialize the whole state to
`vector_store.json`, all three keys present.  (A write failure is caught
and only printed in Python; the model covers the successful write.) -/
def VectorStore.save_to_disk (store : VectorStore) : DiskFile :=
  .good { documents? := some store.documents
          embeddings? := some store.embeddings
          metadata? := some store.metadata }

/-- Model of `VectorStore.load_from_disk`: a missing file is skipped, a read or
parse failure is caught (leaving the state as it was), and parsed data
replaces the three lists, each defaulting to `[]` when its key is
missing. -/
def VectorStore.load_from_disk (disk : DiskFile) (store : VectorStore) :
    VectorStore :=
  match disk with
  | .absent => store
  | .corrupt => store
  | .good data =>
    { documents := data.documents?.getD []
      embeddings := data.embeddings?.getD []
      metadata := data.metadata?.getD [] }

/-- Model of `VectorStore.__init__`: start from empty lists and `load_from_disk`. -/
def VectorStore.init (disk : DiskFile) : VectorStore :=
  VectorStore.load_from_disk disk { documents := [], embeddings := [], metadata := [] }

/-- Model of `VectorStore.add_documents(texts, metadata)`: raises when the embedding
model is not loaded; otherwise encodes the texts, extends the three lists,
and saves the whole store to disk.  Returns the new in-memory state and
the new content of `vector_store.json`. -/
def VectorStore.add_documents (embedding_model : Option (String → List ℚ))
    (store : VectorStore) (texts : List String) (metadata : List Meta) :
    Except String (VectorStore × DiskFile) :=
  match embedding_model with
  | none => .error "Embedding model not loaded"
  | some encode =>
    let store' : VectorStore :=
      { documents := store.documents ++ texts
        embeddings := store.embeddings ++ texts.map encode
        metadata := store.metadata ++ metadata }
    .ok (store', store'.save_to_disk)

/-- Python `x or dflt` for an optional string: `None` and `""` both fall
back to the default. -/
def pyOrStr (x : Option String) (dflt : String) : String :=
  match x with
  | none => dflt
  | some s => if s == "" then dflt else s

/-- One entry of a profile's `travel_history` list. -/
structure HistoryEntry where
  country : String
  visit_date : String
deriving DecidableEq, Repr, Inhabited

/-- A user profile as stored in `storage/users/<user_id>.json`.  The
`preferences` dict is modelled as an association list; `updated_at` is
absent until the first `update_profile`. -/
structure Profile where
  user_id : String
  visited_countries : List String
  preferences : List (String × String)
  travel_history : List HistoryEntry
  created_at : String
  updated_at? : Option String
deriving DecidableEq, Repr, Inhabited

/-- The state of one user's profile file: missing, unreadable or
unparseable, or parsed. -/
inductive FileState where
  | absent
  | corrupt
  | good (p : Profile)
deriving DecidableEq, Repr, Inhabited

/-- The `updates` dict passed to `UserProfileStore.update_profile`;
`profile.update(updates)` overwrites exactly the keys present in it. -/
structure Updates where
  visited_countries? : Option (List String)
  preferences? : Option (List (String × String))
  travel_history? : Option (List HistoryEntry)
deriving DecidableEq, Repr, Inhabited

/-- Python `profile.update(updates)`: keys present in `updates` replace the
profile's values, the rest are kept. -/
def Profile.applyUpdates (p : Profile) (u : Updates) : Profile :=
  { p with
    visited_countries := u.visited_countries?.getD p.visited_countries
    preferences := u.preferences?.getD p.preferences
    travel_history := u.travel_history?.getD p.travel_history }

/-- The full-profile dict that `add_visited_country` passes to
`update_profile` as its `updates` argument: all three mutable keys
present. -/
def Profile.toUpdates (p : Profile) : Updates :=
  { visited_countries? := some p.visited_countries
    preferences? := some p.preferences
    travel_history? := some p.travel_history }

/-- The fresh profile dict built by `get_or_create_profile` when the
file does not exist; `now` stands for `datetime.now().isoformat()`. -/
def freshProfile (user_id : String) (now : String) : Profile :=
  { user_id := user_id
    visited_countries := []
    preferences := []
    travel_history := []
    created_at := now
    updated_at? := none }

/-- Model of `UserProfileStore.get_or_create_profile(user_id)`.  `writeFails`
injects a failure of the `open`/`json.dump` when creating a new profile
file; any exception is caught and turned into `None` (the file left as
it was).  Returns the Python return value and the file's new state. -/
def get_or_create_profile (writeFails : Bool) (now : String)
    (file : FileState) (user_id : String) : Option Profile × FileState :=
  match file with
  | .good p => (some p, file)
  | .corrupt => (none, file)
  | .absent =>
    if writeFails then (none, file)
    else
      let profile := freshProfile user_id now
      (some profile, .good profile)

/-- Model of `UserProfileStore.update_profile(user_id, updates)`: re-read (or
create) the profile, merge `updates` into it, stamp `updated_at`, and
write it back; any failure (including a failing write) is caught and
yields `None`. -/
def update_profile (writeFails : Bool) (now : String) (file : FileState)
    (user_id : String) (updates : Updates) : Option Profile × FileState :=
  match get_or_create_profile writeFails now file user_id with
  | (none, file') => (none, file')
  | (some profile, file') =>
    let profile' : Profile :=
      { profile.applyUpdates updates with updated_at? := some now }
    if writeFails then (none, file')
    else (some profile', .good profile')

/-- Model of `UserProfileStore.add_visited_country(user_id, country, visit_date)`:
append `country` to `visited_countries` only when absent, always append a
`travel_history` entry (dated `visit_date or datetime.now().isoformat()`,
where a `None` or falsy empty-string `visit_date` falls back to the
current timestamp), then persist through `update_profile` with the whole
profile dict as the updates. -/
def add_visited_country (writeFails : Bool) (now : String)
    (file : FileState) (user_id : String) (country : String)
    (visit_date : Option String) : Option Profile × FileState :=
  match get_or_create_profile writeFails now file user_id with
  | (none, file') => (none, file')
  | (some profile, file') =>
    let profile1 : Profile :=
      if country ∈ profile.visited_countries then profile
      else { profile with
             visited_countries := profile.visited_countries ++ [country] }
    let profile2 : Profile :=
      { profile1 with
        travel_history := profile1.travel_history ++
          [{ country := country,
             visit_date := pyOrStr visit_date now }] }
    update_profile writeFails now file' user_id profile2.toUpdates

/-- Python `str.isspace` characters relevant to `str.strip()`. -/
def isPySpace (c : Char) : Bool :=
  c == ' ' || c == '\t' || c == '\n' || c == '\x0d' || c == '\x0b' || c == '\x0c'

/-- Python `str.strip()` on a text modelled as a list of characters:
drop whitespace from both ends. -/
def pyStrip (l : List Char) : List Char :=
  ((l.dropWhile isPySpace).reverse.dropWhile isPySpace).reverse

/-- The chunking loop of `upload_travel_data` with `chunk_size = 500` and
`overlap = 50`: while `start < len(text)`, take `text[start:start+500]`,
strip it, keep it when non-empty, and continue from
`start = (start + 500) - 50`. -/
def chunkGo (text : List Char) (start : Nat) : List (List Char) :=
  if start < text.length then
    (let chunk := pyStrip ((text.drop start).take 500)
     (if chunk.isEmpty then [] else [chunk]) ++ chunkGo text ((start + 500) - 50))
  else []
termination_by text.length - start
decreasing_by simp_wf; omega

/-- The `chunks` list built by `upload_travel_data` from an extracted
text, starting at `start = 0`. -/
def chunkText (text : List Char) : List (List Char) :=
  chunkGo text 0

/-- The chunking loop with an explicit iteration budget, returning the
chunks collected in at most `fuel` iterations of the `while` loop. -/
def chunkGoFuel (text : List Char) (fuel : Nat) (start : Nat) :
    List (List Char) :=
  match fuel with
  | 0 => []
  | fuel + 1 =>
    if start < text.length then
      (let chunk := pyStrip ((text.drop start).take 500)
       (if chunk.isEmpty then [] else [chunk]) ++
         chunkGoFuel text fuel ((start + 500) - 50))
    else []

/-- Python `sep.join(xs)`. -/
def joinSep (sep : String) : List String → String
  | [] => ""
  | [a] => a
  | a :: b :: rest => a ++ sep ++ joinSep sep (b :: rest)

/-- The request body of `POST /api/activities`. -/
structure ActivityRequest where
  user_id : String
  country : String
  interests : List String
  duration_days : Option Nat
deriving DecidableEq, Repr, Inhabited

/-- The request body of `POST /api/recommend-countries`. -/
structure CountryRecommendationRequest where
  user_id : String
  budget : Option String
  travel_style : Option String
deriving DecidableEq, Repr, Inhabited

/-- The `TravelResponse` pydantic model.  The `recommendations` JSON dicts
are opaque here: the block that extracts and `json.loads` them from the
LLM output is abstracted by a `parseRecs : String → List String`
parameter of the endpoints. -/
structure TravelResponse where
  response : String
  recommendations : List String
  sources : List SearchResult
deriving DecidableEq, Repr, Inhabited

/-- Python `rag_context`: empty when no documents were retrieved, otherwise a
header followed by the retrieved texts joined by newlines. -/
def ragContextOf (docs : List SearchResult) : String :=
  if docs.isEmpty then ""
  else "\n\nRelevant Travel Information:\n" ++
    joinSep "\n" (docs.map SearchResult.text)

/-- The search query of `get_activities`: the literal text
`activities things to do `, then the country, a space, and the
space-joined interests. -/
def activitiesQuery (req : ActivityRequest) : String :=
  "activities things to do " ++ req.country ++ " " ++ joinSep " " req.interests

/-- Value of the previously-visited line: join with commas when the list is
non-empty (truthy), else the fallback text. -/
def visitedLine (visited : List String) : String :=
  if visited.isEmpty then "No previous travels" else joinSep ", " visited

/-- Python `interests_str`. -/
def interestsStr (interests : List String) : String :=
  if interests.isEmpty then "general sightseeing" else joinSep ", " interests

/-- Python `duration_str`; Python `if request.duration_days` is false for both
`None` and `0`. -/
def durationStr (duration_days : Option Nat) : String :=
  match duration_days with
  | none => ""
  | some n => if n == 0 then "" else " for " ++ toString n ++ " days"

/-- The part of the `get_activities` prompt f-string before the
interpolated `rag_context` (literal apostrophes written `\x27`). -/
def activitiesPromptPre (req : ActivityRequest) (profile : Profile) :
    String :=
  "You are a knowledgeable travel advisor specializing in " ++ req.country ++
  ".\n\nUser Profile:\n- Previously visited: " ++
  visitedLine profile.visited_countries ++
  "\n- Interests: " ++ interestsStr req.interests ++
  "\n- Duration: " ++ durationStr req.duration_days ++
  "\n\n"

/-- The part of the `get_activities` prompt f-string after the
interpolated `rag_context` (literal braces of the JSON template
written `\x7b`/`\x7d`). -/
def activitiesPromptPost (req : ActivityRequest) : String :=
  "\n\nTask: Provide 5-7 specific, actionable activity recommendations for " ++
  req.country ++ " tailored to the user\x27s interests.\n\n" ++
  "Format your response as a JSON array with this structure:\n[\n  \x7b\n" ++
  "    \"name\": \"Activity name\",\n" ++
  "    \"description\": \"Brief description (2-3 sentences)\",\n" ++
  "    \"category\": \"category (adventure/cultural/food/nature/etc)\",\n" ++
  "    \"location\": \"specific location or region\",\n" ++
  "    \"estimated_cost\": \"budget estimate ($ / $$ / $$$)\",\n" ++
  "    \"best_time\": \"best time to visit/do this\",\n" ++
  "    \"tips\": \"insider tip or important note\"\n  \x7d\n]\n\n" ++
  "Only return the JSON array, no additional text."

/-- The whole prompt f-string of `get_activities`. -/
def activitiesPrompt (req : ActivityRequest) (profile : Profile)
    (rag_context : String) : String :=
  activitiesPromptPre req profile ++ rag_context ++ activitiesPromptPost req

/-- The search query of `recommend_countries`: the literal text
`travel destinations similar to `, then the space-joined visited
countries, a space, and the travel style defaulted to empty. -/
def countriesQuery (visited : List String) (travel_style : Option String) :
    String :=
  "travel destinations similar to " ++ joinSep " " visited ++ " " ++
    pyOrStr travel_style ""

/-- Python `visited_str` of `recommend_countries`. -/
def visitedStrCountries (visited : List String) : String :=
  if visited.isEmpty then "None yet - this is their first trip!"
  else joinSep ", " visited

/-- The part of the `recommend_countries` prompt f-string before the
interpolated `rag_context`. -/
def countriesPromptPre (req : CountryRecommendationRequest)
    (visited : List String) : String :=
  "You are an expert travel advisor helping users discover their next destination." ++
  "\n\nUser\x27s Travel Profile:\n- Countries visited: " ++
  visitedStrCountries visited ++
  "\n- Budget preference: " ++ pyOrStr req.budget "moderate" ++
  "\n- Travel style: " ++ pyOrStr req.travel_style "mixed interests" ++
  "\n\n"

/-- The part of the `recommend_countries` prompt f-string after the
interpolated `rag_context`. -/
def countriesPromptPost : String :=
  "\n\nTask: Recommend 5 countries the user should visit next, considering:\n" ++
  "1. Similar vibes to places they\x27ve enjoyed (if any)\n" ++
  "2. Natural progression in their travel journey\n" ++
  "3. Their budget and travel style\n4. Diverse experiences\n\n" ++
  "Format as JSON array:\n[\n  \x7b\n" ++
  "    \"country\": \"Country name\",\n" ++
  "    \"reason\": \"Why this matches their profile (2-3 sentences)\",\n" ++
  "    \"highlights\": [\"highlight 1\", \"highlight 2\", \"highlight 3\"],\n" ++
  "    \"best_for\": \"What type of traveler this is perfect for\",\n" ++
  "    \"estimated_budget\": \"budget range per day\",\n" ++
  "    \"best_season\": \"best time to visit\",\n" ++
  "    \"similar_to\": \"which of their visited countries it resembles (if applicable)\"" ++
  "\n  \x7d\n]\n\nOnly return the JSON array."

/-- The whole prompt f-string of `recommend_countries`. -/
def countriesPrompt (req : CountryRecommendationRequest)
    (visited : List String) (rag_context : String) : String :=
  countriesPromptPre req visited ++ rag_context ++ countriesPromptPost

/-- Endpoint `POST /api/activities`.  `generate` abstracts the Gemini call,
`parseRecs` the JSON-array extraction from its output.  The profile is
fetched first; a `None` profile only blows up (AttributeError, turned
into HTTP 500) when the prompt f-string reads it, i.e. after the search.
The endpoint returns only the HTTP body; the side effect of creating a
missing profile file is not needed by its callers and is dropped. -/
def get_activities (embedding_model : Option (String → List ℚ))
    (sim : List ℚ → List ℚ → ℚ) (generate : String → String)
    (parseRecs : String → List String) (writeFails : Bool) (now : String)
    (file : FileState) (store : VectorStore) (req : ActivityRequest) :
    Except String TravelResponse :=
  let profile? := (get_or_create_profile writeFails now file req.user_id).1
  match VectorStore.search embedding_model sim store (activitiesQuery req) 5
      (some "activity") with
  | .error e => .error e
  | .ok relevant_docs =>
    match profile? with
    | none => .error "AttributeError: NoneType object has no attribute get"
    | some profile =>
      let rag_context := ragContextOf relevant_docs
      let prompt := activitiesPrompt req profile rag_context
      let response_text := generate prompt
      .ok { response := response_text
            recommendations := parseRecs response_text
            sources := relevant_docs }

/-- Endpoint `POST /api/recommend-countries`.  Here the profile is read before the
search (its `visited_countries` feed the query), so a `None` profile
fails first. -/
def recommend_countries (embedding_model : Option (String → List ℚ))
    (sim : List ℚ → List ℚ → ℚ) (generate : String → String)
    (parseRecs : String → List String) (writeFails : Bool) (now : String)
    (file : FileState) (store : VectorStore)
    (req : CountryRecommendationRequest) : Except String TravelResponse :=
  match (get_or_create_profile writeFails now file req.user_id).1 with
  | none => .error "AttributeError: NoneType object has no attribute get"
  | some profile =>
    let visited := profile.visited_countries
    match VectorStore.search embedding_model sim store
        (countriesQuery visited req.travel_style) 5 (some "destination") with
    | .error e => .error e
    | .ok relevant_docs =>
      let rag_context := ragContextOf relevant_docs
      let prompt := countriesPrompt req visited rag_context
      let response_text := generate prompt
      .ok { response := response_text
            recommendations := parseRecs response_text
            sources := relevant_docs }

/-- Proposition that `needle` occurs as a contiguous substring of `hay`. -/
def occursIn (needle hay : String) : Prop :=
  ∃ l r, hay = l ++ needle ++ r

/-- Inserting is a permutation of consing. -/
theorem insertDescBySnd_perm (x : Nat × ℚ) (l : List (Nat × ℚ)) :
    (insertDescBySnd x l).Perm (x :: l) := by
  induction l with
  | nil => simp [insertDescBySnd]
  | cons y ys ih =>
    simp only [insertDescBySnd]
    split
    · exact List.Perm.refl _
    · exact (ih.cons y).trans (List.Perm.swap x y ys)

/-- The sort is a permutation of its input. -/
theorem sortDescBySnd_perm (l : List (Nat × ℚ)) :
    (sortDescBySnd l).Perm l := by
  induction l with
  | nil => exact List.Perm.refl _
  | cons x xs ih =>
    exact (insertDescBySnd_perm x (sortDescBySnd xs)).trans (ih.cons x)

/-- Inserting into a list sorted by non-increasing score keeps it sorted. -/
theorem insertDescBySnd_pairwise {x : Nat × ℚ} {l : List (Nat × ℚ)}
    (h : l.Pairwise (fun a b => b.2 ≤ a.2)) :
    (insertDescBySnd x l).Pairwise (fun a b => b.2 ≤ a.2) := by
  induction l with
  | nil => simp [insertDescBySnd]
  | cons y ys ih =>
    rcases List.pairwise_cons.1 h with ⟨hy, hys⟩
    simp only [insertDescBySnd]
    split
    case isTrue hle =>
      refine List.pairwise_cons.2 ⟨?_, h⟩
      intro z hz
      rcases List.mem_cons.1 hz with rfl | hz'
      · exact hle
      · exact le_trans (hy z hz') hle
    case isFalse hle =>
      refine List.pairwise_cons.2 ⟨?_, ih hys⟩
      intro z hz
      have hz2 : z = x ∨ z ∈ ys :=
        List.mem_cons.1 ((insertDescBySnd_perm x ys).mem_iff.1 hz)
      rcases hz2 with rfl | hz'
      · exact le_of_lt (lt_of_not_le hle)
      · exact hy z hz'

/-- The sort output is ordered by non-increasing score. -/
theorem sortDescBySnd_pairwise (l : List (Nat × ℚ)) :
    (sortDescBySnd l).Pairwise (fun a b => b.2 ≤ a.2) := by
  induction l with
  | nil => simp [sortDescBySnd]
  | cons x xs ih => exact insertDescBySnd_pairwise ih

/-- Every pair produced by `candidatesOf` carries the similarity score at
its own index. -/
theorem candidatesOf_snd {store : VectorStore} {ft : Option String}
    {sims : List ℚ} {pr : Nat × ℚ}
    (h : pr ∈ candidatesOf store ft sims) : pr.2 = sims.getD pr.1 0 := by
  simp only [candidatesOf, List.mem_map] at h
  obtain ⟨i, _, rfl⟩ := h
  rfl

/-- Indices surviving the filter are in range (given metadata and
embeddings lists of equal length, `sims` being one score per embedding). -/
theorem filteredIndicesOf_lt {store : VectorStore} {ft : Option String}
    {sims : List ℚ} {i : Nat}
    (h : i ∈ filteredIndicesOf store ft sims) :
    i < store.metadata.length ∨ i < sims.length := by
  simp only [filteredIndicesOf] at h
  by_cases ht : truthy ft = true
  · simp only [ht, if_true, List.mem_filter, List.mem_range] at h
    exact Or.inl h.1
  · simp only [Bool.not_eq_true] at ht
    simp only [ht, Bool.false_eq_true, if_false, List.mem_range] at h
    exact Or.inr h

/-- In the truthy-filter branch, every surviving index points at metadata
whose `"type"` equals the filter. -/
theorem filteredIndicesOf_type {store : VectorStore} {s : String}
    {sims : List ℚ} {i : Nat} (hs : ¬ s = "")
    (h : i ∈ filteredIndicesOf store (some s) sims) :
    (store.metadata.getD i default).type? = some s := by
  have ht : truthy (some s) = true := by
    simp [truthy, hs]
  simp only [filteredIndicesOf, ht, if_true, List.mem_filter,
    List.mem_range] at h
  exact eq_of_beq h.2

/-- A concrete embedding function for instantiations. -/
def wEncode : String → List ℚ := fun _ => [1]

/-- A concrete loaded embedding model. -/
def wEm : Option (String → List ℚ) := some wEncode

/-- A concrete similarity function for instantiations. -/
def wSim : List ℚ → List ℚ → ℚ := fun _ _ => 1

/-- A concrete metadata dict of type `"activity"`. -/
def wMeta : Meta :=
  { type? := some "activity", source := "s", chunk_id := 0, uploaded_at := "t" }

/-- A concrete one-document store. -/
def wStore : VectorStore :=
  { documents := ["doc"], embeddings := [[1]], metadata := [wMeta] }

/-- The store after adding one more document to `wStore`. -/
def wStore1 : VectorStore :=
  { documents := ["doc", "t2"], embeddings := [[1], [1]],
    metadata := [wMeta, wMeta] }

/-- The disk file written while producing `wStore1`. -/
def wDisk1 : DiskFile := wStore1.save_to_disk

/-- C3: `add_documents` writes the entire store state wholesale to
`vector_store.json` (the file afterwards holds exactly the new
`documents`, `embeddings` and `metadata` lists), and `save_to_disk`
followed by `load_from_disk` restores exactly the in-memory lists,
whatever state the loading store started from. -/
theorem add_documents_roundtrip
    (em : Option (String → List ℚ)) (store store' : VectorStore)
    (texts : List String) (md : List Meta) (disk' : DiskFile)
    (h : VectorStore.add_documents em store texts md = .ok (store', disk')) :
    disk' = store'.save_to_disk ∧
    ∀ s t : VectorStore, VectorStore.load_from_disk s.save_to_disk t = s := by
  refine ⟨?_, fun s t => rfl⟩
  cases em with
  | none => simp [VectorStore.add_documents] at h
  | some encode =>
    simp only [VectorStore.add_documents, Except.ok.injEq, Prod.mk.injEq] at h
    obtain ⟨h1, h2⟩ := h
    subst h1
    exact h2.symm

/-- Witness for C3 at a concrete store and text. -/
theorem add_documents_roundtrip_witness :
    wDisk1 = wStore1.save_to_disk ∧
    ∀ s t : VectorStore, VectorStore.load_from_disk s.save_to_disk t = s :=
  add_documents_roundtrip wEm wStore wStore1 ["t2"] [wMeta] wDisk1 rfl

/-- C4: `add_documents` is append-only: the previous `documents`,
`embeddings` and `metadata` lists are unchanged at every existing index,
the new texts and metadata are appended at the end in order, and the
embeddings grow by exactly one new entry per text. -/
theorem add_documents_append_only
    (em : Option (String → List ℚ)) (store store' : VectorStore)
    (texts : List String) (md : List Meta) (disk' : DiskFile)
    (h : VectorStore.add_documents em store texts md = .ok (store', disk')) :
    store'.documents = store.documents ++ texts ∧
    store'.metadata = store.metadata ++ md ∧
    (∃ newEmb : List (List ℚ), newEmb.length = texts.length ∧
        store'.embeddings = store.embeddings ++ newEmb) ∧
    (∀ i, i < store.documents.length →
        store'.documents[i]? = store.documents[i]?) ∧
    (∀ i, i < store.embeddings.length →
        store'.embeddings[i]? = store.embeddings[i]?) ∧
    (∀ i, i < store.metadata.length →
        store'.metadata[i]? = store.metadata[i]?) := by
  cases em with
  | none => simp [VectorStore.add_documents] at h
  | some encode =>
    simp only [VectorStore.add_documents, Except.ok.injEq, Prod.mk.injEq] at h
    obtain ⟨h1, _⟩ := h
    subst h1
    refine ⟨rfl, rfl, ⟨texts.map encode, by simp, rfl⟩, ?_, ?_, ?_⟩
    · intro i hi
      exact List.getElem?_append_left hi
    · intro i hi
      exact List.getElem?_append_left hi
    · intro i hi
      exact List.getElem?_append_left hi

/-- Witness for C4 at a concrete store and text. -/
theorem add_documents_append_only_witness :
    wStore1.documents = wStore.documents ++ ["t2"] ∧
    wStore1.metadata = wStore.metadata ++ [wMeta] ∧
    (∃ newEmb : List (List ℚ), newEmb.length = (["t2"] : List String).length ∧
        wStore1.embeddings = wStore.embeddings ++ newEmb) ∧
    (∀ i, i < wStore.documents.length →
        wStore1.documents[i]? = wStore.documents[i]?) ∧
    (∀ i, i < wStore.embeddings.length →
        wStore1.embeddings[i]? = wStore.embeddings[i]?) ∧
    (∀ i, i < wStore.metadata.length →
        wStore1.metadata[i]? = wStore.metadata[i]?) :=
  add_documents_append_only wEm wStore wStore1 ["t2"] [wMeta] wDisk1 rfl

/-- C5: failure recovery is try/except-and-default: a failing read or
parse of `vector_store.json` leaves the store exactly as it was; a
failing read of a profile file makes `get_or_create_profile` (and hence
`update_profile`) return `None`; a failing write makes creating or
updating a profile return `None`; none of these raise. -/
theorem try_except_and_default :
    (∀ store : VectorStore, VectorStore.load_from_disk .corrupt store = store) ∧
    (∀ (wf : Bool) (now uid : String),
        (get_or_create_profile wf now .corrupt uid).1 = none) ∧
    (∀ now uid : String,
        (get_or_create_profile true now .absent uid).1 = none) ∧
    (∀ (wf : Bool) (now uid : String) (u : Updates),
        (update_profile wf now .corrupt uid u).1 = none) ∧
    (∀ (now : String) (file : FileState) (uid : String) (u : Updates),
        (update_profile true now file uid u).1 = none) := by
  refine ⟨fun _ => rfl, fun wf _ _ => ?_, fun _ _ => rfl, fun wf _ _ _ => ?_,
    fun _ file _ _ => ?_⟩
  · cases wf <;> rfl
  · cases wf <;> rfl
  · cases file <;> rfl

/-- C8: the three parallel lists have equal lengths after construction
with no store file on disk, and `add_documents` with as many metadata
dicts as texts preserves the equality. -/
theorem parallel_lists_invariant
    (em : Option (String → List ℚ)) (store store' : VectorStore)
    (texts : List String) (md : List Meta) (disk' : DiskFile)
    (hlen : texts.length = md.length)
    (hd : store.documents.length = store.embeddings.length)
    (hm : store.metadata.length = store.embeddings.length)
    (h : VectorStore.add_documents em store texts md = .ok (store', disk')) :
    ((VectorStore.init .absent).documents.length =
        (VectorStore.init .absent).embeddings.length ∧
      (VectorStore.init .absent).metadata.length =
        (VectorStore.init .absent).embeddings.length) ∧
    (store'.documents.length = store'.embeddings.length ∧
      store'.metadata.length = store'.embeddings.length) := by
  refine ⟨⟨rfl, rfl⟩, ?_⟩
  cases em with
  | none => simp [VectorStore.add_documents] at h
  | some encode =>
    simp only [VectorStore.add_documents, Except.ok.injEq, Prod.mk.injEq] at h
    obtain ⟨h1, _⟩ := h
    subst h1
    simp only [List.length_append, List.length_map]
    omega

/-- Witness for C8 at a concrete store and text. -/
theorem parallel_lists_invariant_witness :
    ((VectorStore.init .absent).documents.length =
        (VectorStore.init .absent).embeddings.length ∧
      (VectorStore.init .absent).metadata.length =
        (VectorStore.init .absent).embeddings.length) ∧
    (wStore1.documents.length = wStore1.embeddings.length ∧
      wStore1.metadata.length = wStore1.embeddings.length) :=
  parallel_lists_invariant wEm wStore wStore1 ["t2"] [wMeta] wDisk1 rfl rfl
    rfl rfl

/-- C9: `search` returns `[]` on an empty store whatever the embedding
model is; a successful search returns at most `top_k` results, each with
score strictly above `0.1`. -/
theorem search_empty_topk_threshold
    (em : Option (String → List ℚ)) (sim : List ℚ → List ℚ → ℚ)
    (store : VectorStore) (q : String) (k : Nat) (ft : Option String)
    (rs : List SearchResult)
    (hok : VectorStore.search em sim store q k ft = .ok rs) :
    (store.embeddings = [] → ∀ em' : Option (String → List ℚ),
        VectorStore.search em' sim store q k ft = .ok ([] : List SearchResult)) ∧
    rs.length ≤ k ∧
    ∀ r ∈ rs, mkRat 1 10 < r.score := by
  refine ⟨?_, ?_⟩
  · intro he em'
    simp [VectorStore.search, he]
  by_cases he : store.embeddings.isEmpty
  · simp only [VectorStore.search, he, if_true, Except.ok.injEq] at hok
    subst hok
    simp
  cases em with
  | none => simp [VectorStore.search, he] at hok
  | some encode =>
    simp only [VectorStore.search, he, Bool.false_eq_true, if_false,
      Except.ok.injEq] at hok
    subst hok
    constructor
    · rw [List.length_map]
      refine le_trans (List.length_filter_le _ _) ?_
      rw [List.length_map, List.length_take]
      exact min_le_left _ _
    · intro r hr
      simp only [List.mem_map, List.mem_filter] at hr
      obtain ⟨idx, ⟨_, hcond⟩, rfl⟩ := hr
      exact of_decide_eq_true hcond

/-- The search result on `wStore` that the concrete instantiations hit. -/
def wRes : List SearchResult := [{ text := "doc", score := 1, metadata := wMeta }]

/-- Witness for C9 at a concrete store and query. -/
theorem search_empty_topk_threshold_witness :
    (wStore.embeddings = [] → ∀ em' : Option (String → List ℚ),
        VectorStore.search em' wSim wStore "q" 5 (some "activity") =
          .ok ([] : List SearchResult)) ∧
    wRes.length ≤ 5 ∧
    ∀ r ∈ wRes, mkRat 1 10 < r.score :=
  search_empty_topk_threshold wEm wSim wStore "q" 5 (some "activity") wRes rfl

/-- C1 (amended): with a truthy — non-`None` and non-empty —
`filter_type`, every result returned by `search` has metadata whose
`"type"` equals `filter_type`; differently-typed documents are never
returned, whatever their similarity score. -/
theorem search_filter_type_respected
    (em : Option (String → List ℚ)) (sim : List ℚ → List ℚ → ℚ)
    (store : VectorStore) (q : String) (k : Nat) (s : String)
    (rs : List SearchResult) (hs : s ≠ "")
    (hok : VectorStore.search em sim store q k (some s) = .ok rs) :
    ∀ r ∈ rs, r.metadata.type? = some s := by
  by_cases he : store.embeddings.isEmpty
  · simp only [VectorStore.search, he, if_true, Except.ok.injEq] at hok
    subst hok
    simp
  cases em with
  | none => simp [VectorStore.search, he] at hok
  | some encode =>
    simp only [VectorStore.search, he, Bool.false_eq_true, if_false,
      Except.ok.injEq] at hok
    subst hok
    intro r hr
    simp only [List.mem_map, List.mem_filter] at hr
    obtain ⟨idx, ⟨⟨pr, hpr, rfl⟩, _⟩, rfl⟩ := hr
    have hsrt : pr ∈ sortDescBySnd (candidatesOf store (some s)
        (similaritiesOf encode sim store q)) :=
      List.Sublist.mem hpr (List.take_sublist _ _)
    have hcand : pr ∈ candidatesOf store (some s)
        (similaritiesOf encode sim store q) :=
      (sortDescBySnd_perm _).mem_iff.1 hsrt
    simp only [candidatesOf, List.mem_map] at hcand
    obtain ⟨i, hi, rfl⟩ := hcand
    exact filteredIndicesOf_type hs hi

/-- Witness for C1's amended theorem at a concrete store, query and
result. -/
theorem search_filter_type_respected_witness :
    ({ text := "doc", score := 1, metadata := wMeta } :
        SearchResult).metadata.type? = some "activity" :=
  search_filter_type_respected wEm wSim wStore "q" 5 "activity" wRes
    (by decide) rfl { text := "doc", score := 1, metadata := wMeta }
    (by simp [wRes])

/-- Counterexample to C1 as stated: `filter_type = some ""` is non-`None`,
yet (being falsy in Python) disables the filter, and the search returns a
result whose metadata `"type"` is `"activity" ≠ ""`. -/
theorem search_filter_type_cex :
    VectorStore.search wEm wSim wStore "q" 5 (some "") = .ok wRes ∧
    ∃ r ∈ wRes, r.metadata.type? ≠ some "" := by
  refine ⟨rfl, ⟨{ text := "doc", score := 1, metadata := wMeta }, ?_, ?_⟩⟩
  · simp [wRes]
  · simp [wMeta]

/-- A successful `get_or_create_profile` always leaves the file holding
exactly the returned profile. -/
theorem get_or_create_profile_good
    {wf : Bool} {now : String} {file : FileState} {uid : String}
    {p : Profile} {f1 : FileState}
    (h : get_or_create_profile wf now file uid = (some p, f1)) :
    f1 = .good p := by
  cases file with
  | good p0 =>
    simp only [get_or_create_profile, Prod.mk.injEq, Option.some.injEq] at h
    rw [← h.2, h.1]
  | corrupt => simp [get_or_create_profile] at h
  | absent =>
    cases wf with
    | true => simp [get_or_create_profile] at h
    | false =>
      simp only [get_or_create_profile, Bool.false_eq_true, if_false,
        Prod.mk.injEq, Option.some.injEq] at h
      rw [← h.2, h.1]

/-- C10: a successful `add_visited_country` appends the country to
`visited_countries` only when it was absent (its occurrence count grows
by one exactly then, and an already-present country is not duplicated),
while a new `travel_history` entry is always appended, dated
`visit_date or now`. -/
theorem add_visited_country_spec
    (wf : Bool) (now : String) (file : FileState) (uid c : String)
    (d : Option String) (p p' : Profile) (f1 f2 : FileState)
    (h1 : get_or_create_profile wf now file uid = (some p, f1))
    (h2 : add_visited_country wf now file uid c d = (some p', f2)) :
    p'.travel_history = p.travel_history ++
      [{ country := c, visit_date := pyOrStr d now }] ∧
    p'.visited_countries.count c = p.visited_countries.count c +
      (if c ∈ p.visited_countries then 0 else 1) ∧
    (c ∈ p.visited_countries → p'.visited_countries = p.visited_countries) := by
  have hf1 : f1 = .good p := get_or_create_profile_good h1
  cases wf with
  | true =>
    exfalso
    simp only [add_visited_country, h1, hf1] at h2
    simp [update_profile, get_or_create_profile] at h2
  | false =>
    simp only [add_visited_country, h1, hf1] at h2
    simp only [update_profile, get_or_create_profile, Bool.false_eq_true,
      if_false, Prod.mk.injEq, Option.some.injEq] at h2
    obtain ⟨hp', _⟩ := h2
    subst hp'
    by_cases hc : c ∈ p.visited_countries
    · simp [Profile.applyUpdates, Profile.toUpdates, hc]
    · simp [Profile.applyUpdates, Profile.toUpdates, hc, List.count_append]

/-- A concrete stored profile with one visited country. -/
def wProfile : Profile :=
  { user_id := "u", visited_countries := ["France"], preferences := [],
    travel_history := [], created_at := "t0", updated_at? := none }

/-- Profile `wProfile` after `add_visited_country("u", "Japan")` at time `"now"`. -/
def wProfileJ : Profile :=
  { user_id := "u", visited_countries := ["France", "Japan"],
    preferences := [],
    travel_history := [{ country := "Japan", visit_date := "now" }],
    created_at := "t0", updated_at? := some "now" }

/-- Witness for C10 at a concrete profile and country. -/
theorem add_visited_country_spec_witness :
    wProfileJ.travel_history = wProfile.travel_history ++
      [{ country := "Japan",
         visit_date := pyOrStr (none : Option String) "now" }] ∧
    wProfileJ.visited_countries.count "Japan" =
      wProfile.visited_countries.count "Japan" +
        (if "Japan" ∈ wProfile.visited_countries then 0 else 1) ∧
    ("Japan" ∈ wProfile.visited_countries →
      wProfileJ.visited_countries = wProfile.visited_countries) :=
  add_visited_country_spec false "now" (.good wProfile) "u" "Japan" none
    wProfile wProfileJ (.good wProfile) (.good wProfileJ) rfl rfl

/-- Stripping never lengthens a chunk. -/
theorem pyStrip_length_le (l : List Char) : (pyStrip l).length ≤ l.length := by
  simp only [pyStrip, List.length_reverse]
  refine le_trans (List.dropWhile_sublist _).length_le ?_
  simp only [List.length_reverse]
  exact (List.dropWhile_sublist _).length_le

/-- C6: the chunking loop of `upload_travel_data` terminates — running it
with any iteration budget `fuel` covering the text length
(`len(text) ≤ start + 450 * fuel`, the start index growing by
`chunk_size - overlap = 450` per iteration) already yields the loop's
full output — and every chunk it produces is non-empty and at most 500
characters long. -/
theorem chunking_terminates_and_bounded (text : List Char) :
    (∀ c ∈ chunkText text, c ≠ [] ∧ c.length ≤ 500) ∧
    (∀ fuel start, text.length ≤ start + 450 * fuel →
        chunkGoFuel text fuel start = chunkGo text start) := by
  constructor
  · have key : ∀ n start, text.length - start ≤ n →
        ∀ c ∈ chunkGo text start, c ≠ [] ∧ c.length ≤ 500 := by
      intro n
      induction n with
      | zero =>
        intro start hle c hc
        rw [chunkGo] at hc
        have : ¬ start < text.length := by omega
        simp [this] at hc
      | succ n ih =>
        intro start hle c hc
        rw [chunkGo] at hc
        by_cases hlt : start < text.length
        · simp only [hlt, if_true, List.mem_append] at hc
          rcases hc with hc | hc
          · by_cases hemp : (pyStrip ((text.drop start).take 500)).isEmpty
            · simp [hemp] at hc
            · simp only [hemp, Bool.false_eq_true, if_false,
                List.mem_singleton] at hc
              subst hc
              refine ⟨fun hnil => hemp (by simp [hnil]), ?_⟩
              refine le_trans (pyStrip_length_le _) ?_
              simp
          · exact ih ((start + 500) - 50) (by omega) c hc
        · simp [hlt] at hc
    intro c hc
    exact key text.length 0 (by omega) c hc
  · intro fuel
    induction fuel with
    | zero =>
      intro start hle
      rw [chunkGoFuel, chunkGo]
      have : ¬ start < text.length := by omega
      simp [this]
    | succ fuel ih =>
      intro start hle
      rw [chunkGoFuel, chunkGo]
      by_cases hlt : start < text.length
      · simp only [hlt, if_true]
        rw [ih ((start + 500) - 50) (by omega)]
      · simp [hlt]

/-- Witness for C6 on a concrete two-character text. -/
theorem chunking_terminates_and_bounded_witness :
    (String.toList "ab" ≠ [] ∧ (String.toList "ab").length ≤ 500) ∧
    chunkGoFuel (String.toList "ab") 1 0 = chunkGo (String.toList "ab") 0 := by
  have h := chunking_terminates_and_bounded (String.toList "ab")
  have heq : chunkGoFuel (String.toList "ab") 1 0 =
      chunkGo (String.toList "ab") 0 := h.2 1 0 (by decide)
  refine ⟨?_, heq⟩
  refine h.1 (String.toList "ab") ?_
  rw [chunkText, ← heq]
  decide

/-- Every pair in the sorted candidate list carries the similarity score
at its own index. -/
theorem sorted_candidatesOf_snd {store : VectorStore} {ft : Option String}
    {sims : List ℚ} {pr : Nat × ℚ}
    (h : pr ∈ sortDescBySnd (candidatesOf store ft sims)) :
    pr.2 = sims.getD pr.1 0 :=
  candidatesOf_snd ((sortDescBySnd_perm _).mem_iff.1 h)

/-- Reading the mapped similarity list at an in-range index gives the
similarity of the query embedding with the stored embedding there. -/
theorem similaritiesOf_getD {encode : String → List ℚ}
    {sim : List ℚ → List ℚ → ℚ} {store : VectorStore} {q : String}
    {i : Nat} (hi : i < store.embeddings.length) :
    (similaritiesOf encode sim store q).getD i 0 =
      sim (encode q) (store.embeddings.getD i []) := by
  simp [similaritiesOf, List.getD_eq_getElem?_getD, List.getElem?_map,
    List.getElem?_eq_getElem hi]

/-- Sortedness by score survives the take/filter/map pipeline that
turns sorted `(index, score)` pairs into search results. -/
theorem pairwise_score_of_pipeline (sims : List ℚ) (l : List (Nat × ℚ))
    (hsnd : ∀ pr ∈ l, pr.2 = sims.getD pr.1 0)
    (hpair : l.Pairwise (fun a b => b.2 ≤ a.2)) (k : Nat) (p : Nat → Bool)
    (docs : List String) (md : List Meta) :
    ((((l.take k).map Prod.fst).filter p).map (fun idx =>
        ({ text := docs.getD idx "", score := sims.getD idx 0,
           metadata := md.getD idx default } : SearchResult))).Pairwise
      (fun a b => b.score ≤ a.score) := by
  rw [List.pairwise_map]
  refine List.Pairwise.sublist (List.filter_sublist _) ?_
  rw [List.pairwise_map]
  refine List.Pairwise.imp_of_mem ?_
    (List.Pairwise.sublist (List.take_sublist _ _) hpair)
  intro a b ha hb hab
  show sims.getD b.1 0 ≤ sims.getD a.1 0
  rw [← hsnd a (List.Sublist.mem ha (List.take_sublist _ _)),
    ← hsnd b (List.Sublist.mem hb (List.take_sublist _ _))]
  exact hab

/-- C2: `search` computes one cosine-similarity score per stored
embedding (a linear scan); each returned result is a stored document
paired with its own metadata and the score of the query embedding
against its own stored embedding; the results are ordered by
non-increasing score; and they are drawn from the `top_k`
highest-scoring filtered candidates — every filtered candidate left
beyond the `top_k` cut scores no higher than any returned result. -/
theorem search_linear_scan_topk
    (encode : String → List ℚ) (sim : List ℚ → List ℚ → ℚ)
    (store : VectorStore) (q : String) (k : Nat) (ft : Option String)
    (rs : List SearchResult)
    (hmeta : store.metadata.length = store.embeddings.length)
    (hok : VectorStore.search (some encode) sim store q k ft = .ok rs) :
    (similaritiesOf encode sim store q).length = store.embeddings.length ∧
    rs.Pairwise (fun a b => b.score ≤ a.score) ∧
    (∀ r ∈ rs, ∃ i, i < store.embeddings.length ∧
        r.text = store.documents.getD i "" ∧
        r.metadata = store.metadata.getD i default ∧
        r.score = sim (encode q) (store.embeddings.getD i [])) ∧
    (∀ r ∈ rs, ∀ pr ∈ (sortDescBySnd (candidatesOf store ft
        (similaritiesOf encode sim store q))).drop k, pr.2 ≤ r.score) := by
  refine ⟨by simp [similaritiesOf], ?_⟩
  by_cases he : store.embeddings.isEmpty
  · simp only [VectorStore.search, he, if_true, Except.ok.injEq] at hok
    subst hok
    simp
  simp only [VectorStore.search, he, Bool.false_eq_true, if_false,
    Except.ok.injEq] at hok
  subst hok
  have hpair := sortDescBySnd_pairwise
    (candidatesOf store ft (similaritiesOf encode sim store q))
  refine ⟨?_, ?_, ?_⟩
  · exact pairwise_score_of_pipeline _ _
      (fun pr h => sorted_candidatesOf_snd h) hpair k _ _ _
  · intro r hr
    simp only [List.mem_map, List.mem_filter] at hr
    obtain ⟨idx, ⟨⟨pr, hpr, rfl⟩, _⟩, rfl⟩ := hr
    have hcand : pr ∈ candidatesOf store ft (similaritiesOf encode sim store q) :=
      (sortDescBySnd_perm _).mem_iff.1
        (List.Sublist.mem hpr (List.take_sublist _ _))
    simp only [candidatesOf, List.mem_map] at hcand
    obtain ⟨i, hi, rfl⟩ := hcand
    have hlt : i < store.embeddings.length := by
      rcases filteredIndicesOf_lt hi with h | h
      · omega
      · simpa [similaritiesOf] using h
    exact ⟨i, hlt, rfl, rfl, similaritiesOf_getD hlt⟩
  · intro r hr pr hdrop
    simp only [List.mem_map, List.mem_filter] at hr
    obtain ⟨idx, ⟨⟨a, ha, rfl⟩, _⟩, rfl⟩ := hr
    have hsub : ((sortDescBySnd (candidatesOf store ft
        (similaritiesOf encode sim store q))).take k ++
          (sortDescBySnd (candidatesOf store ft
            (similaritiesOf encode sim store q))).drop k).Pairwise
        (fun a b => b.2 ≤ a.2) := by
      rw [List.take_append_drop]
      exact hpair
    have hsplit := List.pairwise_append.1 hsub
    have hle : pr.2 ≤ a.2 := hsplit.2.2 a ha pr hdrop
    have ha' := sorted_candidatesOf_snd
      (List.Sublist.mem ha (List.take_sublist _ _))
    show pr.2 ≤ (similaritiesOf encode sim store q).getD a.1 0
    rw [← ha']
    exact hle

/-- Witness for C2 at a concrete store and query. -/
theorem search_linear_scan_topk_witness :
    (similaritiesOf wEncode wSim wStore "q").length =
      wStore.embeddings.length ∧
    wRes.Pairwise (fun a b => b.score ≤ a.score) ∧
    (∀ r ∈ wRes, ∃ i, i < wStore.embeddings.length ∧
        r.text = wStore.documents.getD i "" ∧
        r.metadata = wStore.metadata.getD i default ∧
        r.score = wSim (wEncode "q") (wStore.embeddings.getD i [])) ∧
    (∀ r ∈ wRes, ∀ pr ∈ (sortDescBySnd (candidatesOf wStore (some "activity")
        (similaritiesOf wEncode wSim wStore "q"))).drop 5, pr.2 ≤ r.score) :=
  search_linear_scan_topk wEncode wSim wStore "q" 5 (some "activity") wRes
    rfl rfl

/-- An occurrence inside `s` is an occurrence inside `s ++ u`. -/
theorem occursIn_append_right {t s : String} (h : occursIn t s)
    (u : String) : occursIn t (s ++ u) := by
  obtain ⟨l, r, rfl⟩ := h
  exact ⟨l, r ++ u, by simp [String.append_assoc]⟩

/-- An occurrence inside `s` is an occurrence inside `u ++ s`. -/
theorem occursIn_append_left {t s : String} (h : occursIn t s)
    (u : String) : occursIn t (u ++ s) := by
  obtain ⟨l, r, rfl⟩ := h
  exact ⟨u ++ l, r, by simp [String.append_assoc]⟩

/-- Every joined string occurs in the join. -/
theorem joinSep_occursIn {t : String} {ts : List String} (sep : String)
    (h : t ∈ ts) : occursIn t (joinSep sep ts) := by
  induction ts with
  | nil => simp at h
  | cons a rest ih =>
    rcases List.mem_cons.1 h with rfl | h'
    · cases rest with
      | nil => exact ⟨"", "", by simp [joinSep]⟩
      | cons b rest' =>
        exact ⟨"", sep ++ joinSep sep (b :: rest'),
          by simp [joinSep, String.append_assoc]⟩
    · cases rest with
      | nil => simp at h'
      | cons b rest' =>
        obtain ⟨l, r, heq⟩ := ih h'
        exact ⟨a ++ sep ++ l, r,
          by simp [joinSep, heq, String.append_assoc]⟩

/-- Every retrieved text occurs in the non-empty `rag_context`. -/
theorem ragContextOf_occurs {d : SearchResult} {docs : List SearchResult}
    (h : d ∈ docs) : occursIn d.text (ragContextOf docs) := by
  have hne : docs.isEmpty = false := by
    cases docs with
    | nil => simp at h
    | cons x xs => rfl
  simp only [ragContextOf, hne, Bool.false_eq_true, if_false]
  exact occursIn_append_left
    (joinSep_occursIn "\n" (List.mem_map_of_mem SearchResult.text h)) _

/-- Every retrieved text occurs in the `get_activities` prompt. -/
theorem activitiesPrompt_occurs {d : SearchResult} {docs : List SearchResult}
    (req : ActivityRequest) (p : Profile) (h : d ∈ docs) :
    occursIn d.text (activitiesPrompt req p (ragContextOf docs)) :=
  occursIn_append_right
    (occursIn_append_left (ragContextOf_occurs h) (activitiesPromptPre req p))
    (activitiesPromptPost req)

/-- Every retrieved text occurs in the `recommend_countries` prompt. -/
theorem countriesPrompt_occurs {d : SearchResult} {docs : List SearchResult}
    (req : CountryRecommendationRequest) (visited : List String)
    (h : d ∈ docs) :
    occursIn d.text (countriesPrompt req visited (ragContextOf docs)) :=
  occursIn_append_right
    (occursIn_append_left (ragContextOf_occurs h)
      (countriesPromptPre req visited))
    countriesPromptPost

/-- C7: on a successful `/api/activities` or `/api/recommend-countries`
call, the documents retrieved from the vector store (`top_k = 5`,
`filter_type` `"activity"` resp. `"destination"`) are returned unchanged
as the response's `sources`; the prompt sent to the generative API
contains every retrieved text verbatim; and when retrieval returns no
documents the prompt is the template with an empty retrieved-snippet
section. -/
theorem endpoints_rag_sources
    (em : Option (String → List ℚ)) (sim : List ℚ → List ℚ → ℚ)
    (generate : String → String) (parseRecs : String → List String)
    (wf : Bool) (now : String) (file : FileState) (store : VectorStore)
    (reqA : ActivityRequest) (pA : Profile) (docsA : List SearchResult)
    (respA : TravelResponse) (reqC : CountryRecommendationRequest)
    (pC : Profile) (docsC : List SearchResult) (respC : TravelResponse) :
    ((get_or_create_profile wf now file reqA.user_id).1 = some pA →
      VectorStore.search em sim store (activitiesQuery reqA) 5
          (some "activity") = .ok docsA →
      get_activities em sim generate parseRecs wf now file store reqA =
          .ok respA →
      respA.sources = docsA ∧
      respA.response = generate (activitiesPrompt reqA pA
        (ragContextOf docsA)) ∧
      (∀ d ∈ docsA, occursIn d.text (activitiesPrompt reqA pA
        (ragContextOf docsA))) ∧
      (docsA = [] → activitiesPrompt reqA pA (ragContextOf docsA) =
        activitiesPromptPre reqA pA ++ "" ++ activitiesPromptPost reqA)) ∧
    ((get_or_create_profile wf now file reqC.user_id).1 = some pC →
      VectorStore.search em sim store
          (countriesQuery pC.visited_countries reqC.travel_style) 5
          (some "destination") = .ok docsC →
      recommend_countries em sim generate parseRecs wf now file store reqC =
          .ok respC →
      respC.sources = docsC ∧
      respC.response = generate (countriesPrompt reqC pC.visited_countries
        (ragContextOf docsC)) ∧
      (∀ d ∈ docsC, occursIn d.text (countriesPrompt reqC
        pC.visited_countries (ragContextOf docsC))) ∧
      (docsC = [] → countriesPrompt reqC pC.visited_countries
          (ragContextOf docsC) =
        countriesPromptPre reqC pC.visited_countries ++ "" ++
          countriesPromptPost)) := by
  constructor
  · intro hp hs hok
    simp only [get_activities, hp, hs] at hok
    simp only [Except.ok.injEq] at hok
    subst hok
    refine ⟨rfl, rfl, ?_, ?_⟩
    · intro d hd
      exact activitiesPrompt_occurs reqA pA hd
    · intro hnil
      subst hnil
      simp [activitiesPrompt, ragContextOf]
  · intro hp hs hok
    simp only [recommend_countries, hp, hs] at hok
    simp only [Except.ok.injEq] at hok
    subst hok
    refine ⟨rfl, rfl, ?_, ?_⟩
    · intro d hd
      exact countriesPrompt_occurs reqC pC.visited_countries hd
    · intro hnil
      subst hnil
      simp [countriesPrompt, ragContextOf]

/-- A concrete LLM stub for instantiations. -/
def wGenerate : String → String := fun s => s

/-- A concrete JSON-array parser stub for instantiations. -/
def wParse : String → List String := fun _ => []

/-- A concrete `/api/activities` request. -/
def wReqA : ActivityRequest :=
  { user_id := "u", country := "Japan", interests := [],
    duration_days := none }

/-- A concrete `/api/recommend-countries` request. -/
def wReqC : CountryRecommendationRequest :=
  { user_id := "u", budget := none, travel_style := none }

/-- The `/api/activities` response at the concrete instantiation. -/
def wRespA : TravelResponse :=
  { response := activitiesPrompt wReqA wProfile (ragContextOf wRes)
    recommendations := []
    sources := wRes }

/-- The `/api/recommend-countries` response at the concrete
instantiation (no stored document has type `"destination"`, so the
retrieval is empty there). -/
def wRespC : TravelResponse :=
  { response := countriesPrompt wReqC ["France"] ""
    recommendations := []
    sources := [] }

/-- Witness for C7 at concrete requests, store and profile. -/
theorem endpoints_rag_sources_witness :
    (wRespA.sources = wRes ∧
     wRespA.response = wGenerate (activitiesPrompt wReqA wProfile
       (ragContextOf wRes)) ∧
     (∀ d ∈ wRes, occursIn d.text (activitiesPrompt wReqA wProfile
       (ragContextOf wRes))) ∧
     (wRes = [] → activitiesPrompt wReqA wProfile (ragContextOf wRes) =
       activitiesPromptPre wReqA wProfile ++ "" ++
         activitiesPromptPost wReqA)) ∧
    (wRespC.sources = ([] : List SearchResult) ∧
     wRespC.response = wGenerate (countriesPrompt wReqC
       wProfile.visited_countries (ragContextOf [])) ∧
     (∀ d ∈ ([] : List SearchResult), occursIn d.text (countriesPrompt wReqC
       wProfile.visited_countries (ragContextOf []))) ∧
     (([] : List SearchResult) = [] → countriesPrompt wReqC
         wProfile.visited_countries (ragContextOf []) =
       countriesPromptPre wReqC wProfile.visited_countries ++ "" ++
         countriesPromptPost)) :=
  ⟨(endpoints_rag_sources wEm wSim wGenerate wParse false "now"
      (.good wProfile) wStore wReqA wProfile wRes wRespA wReqC wProfile []
      wRespC).1 rfl rfl rfl,
   (endpoints_rag_sources wEm wSim wGenerate wParse false "now"
      (.good wProfile) wStore wReqA wProfile wRes wRespA wReqC wProfile []
      wRespC).2 rfl rfl rfl⟩
